import Mathlib

/-!
Verification of the simulcast RTP forwarding engine
(`src/worker/src/RTC/SimulcastConsumer.cpp`).

The C++ class `RTC::SimulcastConsumer` is shallowly embedded below.
Machine integers are modelled as `Nat` (unsigned) and `Int` (for the
`int16_t` layer indices), with explicit `% 2^32` where `uint32_t`
arithmetic wraps.  Collaborator objects whose code is not part of the
source file (the base `Consumer`, `RtpStream`, `RtpSeqManager`,
`RtpPacket` payload handling, the codec `EncodingContext`) are modelled
from the specification, as noted on each definition.
-/

namespace Simulcast

/-- A producer-side RTP stream handle, as observed by the consumer
(`getScore`, `getActiveTime`, `getTemporalLayers`, `getBitrate`,
`getLayerBitrate`, `getSenderReportNtpMs`, `getSenderReportTs`).
Modelled from the spec: the `RtpStream` class is not in the source;
`bitrates` (resp. `layerBitrates`) gives `getBitrate(now, 0, t)`
(resp. `getLayerBitrate(now, 0, t)`) as a snapshot indexed by the
temporal layer `t`. -/
structure PStream where
  score : Nat
  activeTime : Nat
  temporalLayers : Nat
  senderReportNtpMs : Nat
  senderReportTs : Nat
  bitrates : List Nat
  layerBitrates : List Nat
  deriving DecidableEq, Repr

/-- The owned send-side RTP stream, as observed by the consumer.
Modelled from the spec (`RtpStreamSend` is not in the source). -/
structure OutStream where
  maxPacketTs : Nat
  lossPercentage : Nat
  clockRate : Nat
  spatialLayers : Int
  temporalLayers : Int
  score : Nat
  paused : Bool
  deriving DecidableEq, Repr

/-- The codec-specific encoding context, reduced to the two temporal
layer registers the consumer reads and writes
(`SetTargetTemporalLayer`, `SetCurrentTemporalLayer`,
`GetCurrentTemporalLayer`).  Modelled from the spec (the codec classes
are not in the source). -/
structure EncCtx where
  targetTemporalLayer : Int
  currentTemporalLayer : Int
  deriving DecidableEq, Repr

/-- State of one `SimulcastConsumer` instance, translated from the
member variables used by `SimulcastConsumer.cpp`.  The base class
activity flags (`transportConnected`, `paused`) are modelled from the
spec; `IsActive()` is their conjunction.  `rtpSeqManager` models the
`RtpSeqManager` (not in the source) from the spec as the last assigned
output sequence number: `Input` assigns the next contiguous value,
`Sync(base)` makes the next output `base + 1` mod `2^16`, and `Drop`
advances the mapping without consuming an output slot. -/
structure State where
  transportConnected : Bool
  paused : Bool
  externallyManagedBitrate : Bool
  syncRequired : Bool
  kindVideo : Bool
  preferredSpatialLayer : Int
  preferredTemporalLayer : Int
  targetSpatialLayer : Int
  targetTemporalLayer : Int
  currentSpatialLayer : Int
  tsReferenceSpatialLayer : Int
  provisionalTargetSpatialLayer : Int
  provisionalTargetTemporalLayer : Int
  tsOffset : Nat
  tsExtraOffsets : List (Nat × Nat)
  tsExtraOffetPacketCount : Nat
  producerRtpStreams : List (Option PStream)
  mapMappedSsrcSpatialLayer : List (Nat × Int)
  supportedCodecPayloadTypes : List Nat
  consumableSsrcs : List Nat
  outputSsrc : Nat
  encodingContext : EncCtx
  rtpStream : OutStream
  rtpSeqManager : Nat
  deriving DecidableEq, Repr

/-- Events emitted to the channel notifier, the transport listener and
the sequence manager during an operation. -/
inductive Effect where
  | scoreEmitted : Effect
  | layersChange : Effect
  | keyFrameRequested (mappedSsrc : Nat) : Effect
  | needBitrateChange : Effect
  | packetReceived (ssrc seq ts : Nat) : Effect
  | packetToListener : Effect
  | seqDropped (seq : Nat) : Effect
  deriving DecidableEq, Repr

/-- `RTC::Consumer::IsActive()`.  Modelled from the spec: the base
consumer is out of scope; active means the transport is connected and
the consumer is not paused. -/
def IsActive (st : State) : Bool :=
  st.transportConnected && !st.paused

/-- Reduction modulo `2^32` (`uint32_t` wrap-around). -/
def u32 (n : Nat) : Nat := n % 4294967296

/-- `uint32_t` subtraction `a - b` (wrapping). -/
def u32sub (a b : Nat) : Nat :=
  (a + 4294967296 - b % 4294967296) % 4294967296

/-- Reduction modulo `2^16` (`uint16_t` wrap-around). -/
def u16 (n : Nat) : Nat := n % 65536

/-- `this->producerRtpStreams.at(i)` for an `int16_t` index. -/
def slotAt (st : State) (i : Int) : Option PStream :=
  if i < 0 then none else st.producerRtpStreams.getD i.toNat none

/-- `GetSenderReportNtpMs()` of the producer stream at slot `i`; an
empty slot is read as `0` (in the source a null slot would be a fatal
dereference, which never happens under the invariant that the reference
slot is non-empty). -/
def ntpAt (st : State) (i : Int) : Nat :=
  match slotAt st i with
  | some ps => ps.senderReportNtpMs
  | none => 0

/-- `SimulcastConsumer::CanSwitchToSpatialLayer` (source lines
1440-1467). -/
def CanSwitchToSpatialLayer (st : State) (spatialLayer : Int) : Bool :=
  st.tsReferenceSpatialLayer == -1 ||
  spatialLayer == st.tsReferenceSpatialLayer ||
  (ntpAt st st.tsReferenceSpatialLayer != 0 && ntpAt st spatialLayer != 0)

/-- The virtual bitrate computed from the loss percentage, exactly as
in `UseAvailableBitrate` (lines 386-404) and `IncreaseTemporalLayer`
(lines 559-577).  `GetLossPercentage()` is modelled from the spec as
returning an unsigned 8-bit integer, so `lossPercentage / 100` is the
C++ integer division; the `double` multiplications are modelled over
`ℚ` with the final truncating assignment to `uint32_t` as a floor. -/
def virtualBitrate (considerLoss : Bool) (lossPercentage bitrate : Nat) : Nat :=
  if considerLoss then
    if lossPercentage < 2 then
      (Int.floor (((108 : ℚ) / 100) * (bitrate : ℚ))).toNat
    else if lossPercentage > 10 then
      (Int.floor ((1 - (1 / 2 : ℚ) * ((lossPercentage / 100 : Nat) : ℚ)) * (bitrate : ℚ))).toNat
    else bitrate
  else bitrate

/-- The scan loop of `GetBitratePriority` (lines 344-362): ascending
over the spatial slots, `prio` holds the last adopted layer
(`prioritySpatialLayer`), starting at `-1`. -/
def gbpLoop (pref : Int) : List (Option PStream) → Nat → Int → Int
  | [], _, prio => prio
  | o :: rest, i, prio =>
    if (i : Int) > pref ∧ prio ≠ -1 then prio
    else
      match o with
      | none => gbpLoop pref rest (i + 1) prio
      | some ps =>
        if ps.score = 0 then gbpLoop pref rest (i + 1) prio
        else gbpLoop pref rest (i + 1) (i : Int)

/-- `SimulcastConsumer::GetBitratePriority` (lines 333-372). -/
def GetBitratePriority (st : State) : Int :=
  if IsActive st = false then 0
  else
    let p := gbpLoop st.preferredSpatialLayer st.producerRtpStreams 0 (-1)
    if p = -1 then 1 else p + 1

/-- Slot `k` of a producer stream list holds a stream with positive
score (the eligibility test of the `GetBitratePriority` scan). -/
def eligAt (l : List (Option PStream)) (k : Nat) : Prop :=
  ∃ ps, l.getD k none = some ps ∧ ps.score ≠ 0

instance (l : List (Option PStream)) (k : Nat) : Decidable (eligAt l k) := by
  unfold eligAt
  cases l.getD k none with
  | none => exact .isFalse (by simp)
  | some ps => exact decidable_of_iff (ps.score ≠ 0) (by simp)

/-- The inner (temporal) loop of `UseAvailableBitrate` (lines
437-477).  `acc` is `(provisionalTargetSpatialLayer,
provisionalTargetTemporalLayer, usedBitrate)`; the returned `Bool` is
true when the loop jumped to `done` (exiting the spatial scan too). -/
def uabInner (prefS prefT : Int) (ps : PStream) (s : Int) (vb : Nat) :
    Nat → Nat → Int × Int × Nat → Int × Int × Nat × Bool
  | 0, _, acc => (acc.1, acc.2.1, acc.2.2, false)
  | fuel + 1, t, acc =>
    let req := ps.bitrates.getD t 0
    if req = 0 then (acc.1, acc.2.1, acc.2.2, false)
    else if req > vb then (acc.1, acc.2.1, acc.2.2, true)
    else
      if s = prefS ∧ (t : Int) = prefT ∧ ps.score ≥ 5 then (s, (t : Int), req, true)
      else uabInner prefS prefT ps s vb fuel (t + 1) (s, (t : Int), req)

/-- The outer (spatial) loop of `UseAvailableBitrate` (lines 410-490).
`acc` is `(provisionalTargetSpatialLayer, provisionalTargetTemporalLayer,
usedBitrate, maxProducerScore)`. -/
def uabOuter (st : State) (vb : Nat) :
    List (Option PStream) → Nat → Int × Int × Nat × Nat → Int × Int × Nat
  | [], _, acc => (acc.1, acc.2.1, acc.2.2.1)
  | o :: rest, i, acc =>
    match o with
    | none => uabOuter st vb rest (i + 1) acc
    | some ps =>
      if ps.score = 0 then uabOuter st vb rest (i + 1) acc
      else if acc.2.2.1 > 0 ∧ ps.activeTime < 2000 then uabOuter st vb rest (i + 1) acc
      else if CanSwitchToSpatialLayer st (i : Int) = false then uabOuter st vb rest (i + 1) acc
      else if ps.score < acc.2.2.2 ∧ ps.score < 5 then uabOuter st vb rest (i + 1) acc
      else
        let r := uabInner st.preferredSpatialLayer st.preferredTemporalLayer ps (i : Int) vb
          ps.temporalLayers 0 (acc.1, acc.2.1, acc.2.2.1)
        if r.2.2.2 = true then (r.1, r.2.1, r.2.2.1)
        else if r.1 ≥ st.preferredSpatialLayer ∧ ps.score ≥ 5 then (r.1, r.2.1, r.2.2.1)
        else uabOuter st vb rest (i + 1) (r.1, r.2.1, r.2.2.1, ps.score)

/-- `SimulcastConsumer::UseAvailableBitrate` (lines 374-534): returns
the updated state (provisional target layers) and the recomputed used
bitrate. -/
def UseAvailableBitrate (st : State) (bitrate : Nat) (considerLoss : Bool) : State × Nat :=
  let st1 := { st with provisionalTargetSpatialLayer := -1, provisionalTargetTemporalLayer := -1 }
  if IsActive st1 = false then (st1, 0)
  else
    let vb := virtualBitrate considerLoss st1.rtpStream.lossPercentage bitrate
    let r := uabOuter st1 vb st1.producerRtpStreams 0 (-1, -1, 0, 0)
    let st2 := { st1 with provisionalTargetSpatialLayer := r.1,
                          provisionalTargetTemporalLayer := r.2.1 }
    let used := r.2.2
    (st2, if used ≤ bitrate then used else if used ≤ vb then bitrate else used)

/-- The temporal scan of `IncreaseTemporalLayer` (lines 586-604),
returning the loop variable at exit and the last `requiredBitrate`. -/
def itlLoop (prefS prefT provS : Int) (ps : PStream) : Nat → Nat → Nat × Nat
  | 0, t => (t, 0)
  | fuel + 1, t =>
    if provS ≥ prefS ∧ (t : Int) > prefT then (t, 0)
    else
      let req := ps.layerBitrates.getD t 0
      if req ≠ 0 then (t, req)
      else itlLoop prefS prefT provS ps fuel (t + 1)

/-- `SimulcastConsumer::IncreaseTemporalLayer` (lines 536-633).
Returns `none` when the asserted provisional target stream is missing. -/
def IncreaseTemporalLayer (st : State) (bitrate : Nat) (considerLoss : Bool) :
    Option (State × Nat) :=
  if IsActive st = false then some (st, 0)
  else if st.provisionalTargetSpatialLayer = -1 then some (st, 0)
  else if st.provisionalTargetSpatialLayer = st.preferredSpatialLayer ∧
          st.provisionalTargetTemporalLayer = st.preferredTemporalLayer then some (st, 0)
  else
    let vb := virtualBitrate considerLoss st.rtpStream.lossPercentage bitrate
    match slotAt st st.provisionalTargetSpatialLayer with
    | none => none
    | some ps =>
      let t0 := (st.provisionalTargetTemporalLayer + 1).toNat
      let r := itlLoop st.preferredSpatialLayer st.preferredTemporalLayer
        st.provisionalTargetSpatialLayer ps (ps.temporalLayers - t0) t0
      if r.2 = 0 then some (st, 0)
      else if r.2 > vb then some (st, 0)
      else
        some ({ st with provisionalTargetTemporalLayer := (r.1 : Int) },
          if r.2 ≤ bitrate then r.2 else if r.2 ≤ vb then bitrate else r.2)

/-- `requestKeyFrameForTargetSpatialLayer` (lines 1255-1270), as the
effects it emits. -/
def RequestKeyFrameForTargetSpatialLayer (st : State) : List Effect :=
  if st.kindVideo = true ∧ (slotAt st st.targetSpatialLayer).isSome then
    [Effect.keyFrameRequested (st.consumableSsrcs.getD st.targetSpatialLayer.toNat 0)]
  else []

/-- `requestKeyFrameForCurrentSpatialLayer` (lines 1272-1287). -/
def RequestKeyFrameForCurrentSpatialLayer (st : State) : List Effect :=
  if st.kindVideo = true ∧ (slotAt st st.currentSpatialLayer).isSome then
    [Effect.keyFrameRequested (st.consumableSsrcs.getD st.currentSpatialLayer.toNat 0)]
  else []

/-- `RequestKeyFrames` (lines 1230-1253): key frames for the target
stream, and for the current stream when it is a different stream object
(distinct slots hold distinct stream objects, so pointer inequality is
slot inequality). -/
def RequestKeyFrames (st : State) : List Effect :=
  if st.kindVideo = false then []
  else
    (if (slotAt st st.targetSpatialLayer).isSome then
      [Effect.keyFrameRequested (st.consumableSsrcs.getD st.targetSpatialLayer.toNat 0)]
    else []) ++
    (if (slotAt st st.currentSpatialLayer).isSome ∧
        ¬(st.currentSpatialLayer = st.targetSpatialLayer ∧
          (slotAt st st.targetSpatialLayer).isSome) then
      [Effect.keyFrameRequested (st.consumableSsrcs.getD st.currentSpatialLayer.toNat 0)]
    else [])

/-- `SimulcastConsumer::UpdateTargetLayers` (lines 1388-1438). -/
def UpdateTargetLayers (st : State) (newTargetSpatialLayer newTargetTemporalLayer : Int) :
    State × List Effect :=
  let st :=
    if newTargetSpatialLayer ≠ -1 ∧ st.tsReferenceSpatialLayer = -1 then
      { st with tsReferenceSpatialLayer := newTargetSpatialLayer }
    else st
  if newTargetSpatialLayer = -1 then
    ({ st with targetSpatialLayer := -1, targetTemporalLayer := -1,
               currentSpatialLayer := -1, encodingContext := ⟨-1, -1⟩ },
     [Effect.layersChange])
  else
    let st := { st with targetSpatialLayer := newTargetSpatialLayer,
                        targetTemporalLayer := newTargetTemporalLayer }
    let st :=
      if st.targetSpatialLayer = st.currentSpatialLayer then
        { st with encodingContext :=
          { st.encodingContext with targetTemporalLayer := st.targetTemporalLayer } }
      else st
    if st.targetSpatialLayer ≠ st.currentSpatialLayer then
      (st, RequestKeyFrameForTargetSpatialLayer st)
    else (st, [])

/-- The spatial scan of `RecalculateTargetLayers` (lines 1326-1367).
`newS` is the adopted `newTargetSpatialLayer`, `maxScore` the best seen
producer score. -/
def rtlLoop (st : State) : List (Option PStream) → Nat → Int → Nat → Int
  | [], _, newS, _ => newS
  | o :: rest, i, newS, maxScore =>
    match o with
    | none => rtlLoop st rest (i + 1) newS maxScore
    | some ps =>
      if ps.score = 0 then rtlLoop st rest (i + 1) newS maxScore
      else if st.externallyManagedBitrate = true ∧ newS ≠ -1 ∧ ps.activeTime < 2000 then
        rtlLoop st rest (i + 1) newS maxScore
      else if CanSwitchToSpatialLayer st (i : Int) = false then
        rtlLoop st rest (i + 1) newS maxScore
      else if ps.score < maxScore ∧ ps.score < 5 then
        rtlLoop st rest (i + 1) newS maxScore
      else if (i : Int) ≥ st.preferredSpatialLayer ∧ ps.score ≥ 5 then (i : Int)
      else rtlLoop st rest (i + 1) (i : Int) ps.score

/-- `SimulcastConsumer::RecalculateTargetLayers` (lines 1315-1386):
returns `(newTargetSpatialLayer, newTargetTemporalLayer, changed)`. -/
def RecalculateTargetLayers (st : State) : Int × Int × Bool :=
  let newS := rtlLoop st st.producerRtpStreams 0 (-1) 0
  let newT :=
    if newS = -1 then -1
    else if newS = st.preferredSpatialLayer then st.preferredTemporalLayer
    else if newS < st.preferredSpatialLayer then st.rtpStream.temporalLayers - 1
    else 0
  (newS, newT, (newS != st.targetSpatialLayer) || (newT != st.targetTemporalLayer))

/-- `SimulcastConsumer::MayChangeLayers` (lines 1289-1313). -/
def MayChangeLayers (st : State) (force : Bool) : State × List Effect :=
  let r := RecalculateTargetLayers st
  if r.2.2 = true then
    if st.externallyManagedBitrate = true then
      if r.1 ≠ st.targetSpatialLayer ∨ force = true then (st, [Effect.needBitrateChange])
      else (st, [])
    else UpdateTargetLayers st r.1 r.2.1
  else (st, [])

/-- The `get<int16_t>()` conversion applied to a validated unsigned
request field: an unchecked narrowing cast, wrapping modulo `2^16` into
the signed 16-bit range (e.g. `65535` becomes `-1`). -/
def toInt16 (n : Nat) : Int :=
  if n % 65536 < 32768 then ((n % 65536 : Nat) : Int)
  else ((n % 65536 : Nat) : Int) - 65536

/-- Clamp of the requested `spatialLayer` in
`CONSUMER_SET_PREFERRED_LAYERS` (lines 209-212): the validated unsigned
request field is first narrowed by `get<int16_t>()`, then capped at
`GetSpatialLayers() - 1`. -/
def clampPreferredSpatial (st : State) (s : Nat) : Int :=
  if toInt16 s > st.rtpStream.spatialLayers - 1 then st.rtpStream.spatialLayers - 1
  else toInt16 s

/-- Clamp of the optional `temporalLayer` (lines 215-225): present
values are narrowed by `get<int16_t>()` then capped at
`GetTemporalLayers() - 1`; an absent field defaults to the maximum. -/
def clampPreferredTemporal (st : State) (t? : Option Nat) : Int :=
  match t? with
  | some t =>
    if toInt16 t > st.rtpStream.temporalLayers - 1 then st.rtpStream.temporalLayers - 1
    else toInt16 t
  | none => st.rtpStream.temporalLayers - 1

/-- The `CONSUMER_SET_PREFERRED_LAYERS` branch of
`SimulcastConsumer::HandleRequest` (lines 195-249), for a request whose
`spatialLayer` field validated.  The returned `Bool` records whether
`MayChangeLayers` was invoked. -/
def HandleSetPreferredLayers (st : State) (s : Nat) (t? : Option Nat) :
    State × List Effect × Bool :=
  let prevS := st.preferredSpatialLayer
  let prevT := st.preferredTemporalLayer
  let st := { st with preferredSpatialLayer := clampPreferredSpatial st s,
                      preferredTemporalLayer := clampPreferredTemporal st t? }
  if IsActive st = true ∧ (st.preferredSpatialLayer ≠ prevS ∨ st.preferredTemporalLayer ≠ prevT)
  then
    let r := MayChangeLayers st true
    (r.1, r.2, true)
  else (st, [], false)

/-- The `CONSUMER_REQUEST_KEY_FRAME` branch of `HandleRequest`
(lines 185-193). -/
def HandleRequestKeyFrame (st : State) : State × List Effect :=
  (st, if IsActive st = true then RequestKeyFrames st else [])

/-- `SimulcastConsumer::ApplyLayers` (lines 635-660).  The returned
`Bool` records whether `UpdateTargetLayers` was invoked. -/
def ApplyLayers (st : State) : State × List Effect × Bool :=
  let pS := st.provisionalTargetSpatialLayer
  let pT := st.provisionalTargetTemporalLayer
  let st1 := { st with provisionalTargetSpatialLayer := -1,
                       provisionalTargetTemporalLayer := -1 }
  if IsActive st1 = false then (st1, [], false)
  else if pS ≠ st1.targetSpatialLayer ∨ pT ≠ st1.targetTemporalLayer then
    let r := UpdateTargetLayers st1 pS pT
    (r.1, r.2, true)
  else (st1, [], false)

/-- Replace the stream object held at slot `i`. -/
def setSlot : List (Option PStream) → Nat → PStream → List (Option PStream)
  | [], _, _ => []
  | _ :: rest, 0, ps => some ps :: rest
  | o :: rest, i + 1, ps => o :: setSlot rest i ps

/-- Apply `f` to the stream held at slot `i`, when present. -/
def modifySlot : List (Option PStream) → Nat → (PStream → PStream) → List (Option PStream)
  | [], _, _ => []
  | o :: rest, 0, f => o.map f :: rest
  | o :: rest, i + 1, f => o :: modifySlot rest i f

/-- `SimulcastConsumer::ProducerRtpStream` (lines 259-270): attach a
producer stream at its mapped slot. -/
def ProducerRtpStream (st : State) (sIdx : Nat) (ps : PStream) : State × List Effect :=
  ({ st with producerRtpStreams := setSlot st.producerRtpStreams sIdx ps }, [])

/-- `SimulcastConsumer::ProducerNewRtpStream` (lines 272-286). -/
def ProducerNewRtpStream (st : State) (sIdx : Nat) (ps : PStream) : State × List Effect :=
  let st := { st with producerRtpStreams := setSlot st.producerRtpStreams sIdx ps }
  if IsActive st = true then MayChangeLayers st false else (st, [])

/-- `SimulcastConsumer::ProducerRtpStreamScore` (lines 288-310).  The
shared stream object whose score changed is the one at slot `sIdx`, and
it already carries the new score when the handler runs; the returned
`Bool` records whether `MayChangeLayers` was invoked. -/
def ProducerRtpStreamScore (st : State) (sIdx : Nat) (score previousScore : Nat) :
    State × List Effect × Bool :=
  let l := modifySlot st.producerRtpStreams sIdx (fun ps => { ps with score := score })
  let st := { st with producerRtpStreams := l }
  let tr0 :=
    if (sIdx : Int) = st.currentSpatialLayer ∧ (slotAt st st.currentSpatialLayer).isSome then
      [Effect.scoreEmitted]
    else []
  if IsActive st = true ∧
     (st.externallyManagedBitrate = false ∨ score = 0 ∨ previousScore = 0) then
    let r := MayChangeLayers st false
    (r.1, tr0 ++ r.2, true)
  else (st, tr0, false)

/-- `SimulcastConsumer::ProducerRtcpSenderReport` (lines 312-331).  The
shared stream object at slot `sIdx` already carries the new sender
report when the handler runs. -/
def ProducerRtcpSenderReport (st : State) (sIdx : Nat) (ntp ts : Nat) (first : Bool) :
    State × List Effect :=
  let l := modifySlot st.producerRtpStreams sIdx
    (fun ps => { ps with senderReportNtpMs := ntp, senderReportTs := ts })
  let st := { st with producerRtpStreams := l }
  if first = false then (st, [])
  else
    match slotAt st st.currentSpatialLayer with
    | none => (st, [])
    | some cur =>
      if cur.senderReportNtpMs = 0 then (st, [])
      else if IsActive st = true then MayChangeLayers st false
      else (st, [])

/-- `SimulcastConsumer::UserOnTransportConnected` (lines 1104-1112);
the base class records the transport as connected before the hook
runs (modelled from the spec). -/
def UserOnTransportConnected (st : State) : State × List Effect :=
  let st := { st with transportConnected := true, syncRequired := true }
  if IsActive st = true then MayChangeLayers st false else (st, [])

/-- `SimulcastConsumer::UserOnTransportDisconnected` (lines 1114-1121). -/
def UserOnTransportDisconnected (st : State) : State × List Effect :=
  let st := { st with transportConnected := false,
                      rtpStream := { st.rtpStream with paused := true } }
  UpdateTargetLayers st (-1) (-1)

/-- `SimulcastConsumer::UserOnPaused` (lines 1123-1135). -/
def UserOnPaused (st : State) : State × List Effect :=
  let st := { st with paused := true, rtpStream := { st.rtpStream with paused := true } }
  let r := UpdateTargetLayers st (-1) (-1)
  if r.1.externallyManagedBitrate = true then (r.1, r.2 ++ [Effect.needBitrateChange])
  else (r.1, r.2)

/-- `SimulcastConsumer::UserOnResumed` (lines 1137-1145). -/
def UserOnResumed (st : State) : State × List Effect :=
  let st := { st with paused := false, syncRequired := true }
  if IsActive st = true then MayChangeLayers st false else (st, [])

/-- `SimulcastConsumer::ReceiveKeyFrameRequest` (lines 1069-1078); the
send stream bookkeeping is external. -/
def ReceiveKeyFrameRequest (st : State) : State × List Effect :=
  (st, if IsActive st = true then RequestKeyFrameForCurrentSpatialLayer st else [])

/-- An inbound RTP packet as read/written by `SendRtpPacket`.
`temporalLayer` is `GetTemporalLayer()` of the payload descriptor;
`origPayload` is the saved original payload held by the payload
descriptor handler, restored by `RestorePayload` (modelled from the
spec; the `RtpPacket` class is not in the source). -/
structure RtpPacket where
  ssrc : Nat
  sequenceNumber : Nat
  timestamp : Nat
  payloadType : Nat
  isKeyFrame : Bool
  temporalLayer : Int
  payload : List Nat
  origPayload : Option (List Nat)
  deriving DecidableEq, Repr

/-- The codec-specific decision of `processPayload`: given the encoding
context and the payload, decide whether to forward, and return the
updated context (current temporal layer) and the possibly rewritten
payload.  Kept abstract: the codec classes are outside the source. -/
def ProcFn : Type := EncCtx → List Nat → Bool × EncCtx × List Nat

/-- `RtpPacket::ProcessPayload`.  Modelled from the spec (4.C): the
handler may mutate the payload descriptor in order to forward the
packet with higher temporal layers dropped, saving the original payload
so that `RestorePayload` can undo the mutation; when it rejects the
packet it leaves the payload untouched. -/
def processPayload (proc : ProcFn) (ctx : EncCtx) (pkt : RtpPacket) :
    Bool × EncCtx × RtpPacket :=
  let r := proc ctx pkt.payload
  if r.1 = true then
    (true, r.2.1,
      { pkt with payload := r.2.2, origPayload := some (pkt.origPayload.getD pkt.payload) })
  else (false, ctx, pkt)

/-- `RtpPacket::RestorePayload`.  Modelled from the spec (9): restores
the payload saved by the handler, if any. -/
def restorePayload (pkt : RtpPacket) : RtpPacket :=
  match pkt.origPayload with
  | some p => { pkt with payload := p, origPayload := none }
  | none => pkt

/-- Association list lookup (`std::map::find`), keys unique. -/
def lookupAssoc (l : List (Nat × Nat)) (k : Nat) : Option Nat :=
  (l.find? (fun p => p.1 == k)).map (fun p => p.2)

/-- Lookup in `mapMappedSsrcSpatialLayer` (`std::map::at`). -/
def lookupSsrc (l : List (Nat × Int)) (k : Nat) : Option Int :=
  (l.find? (fun p => p.1 == k)).map (fun p => p.2)

/-- The timestamp rewrite of `SendRtpPacket` (lines 914-962): computes
the outbound timestamp from the inbound one and updates
`tsExtraOffsets` and `tsExtraOffetPacketCount`. -/
def rewriteTs (st : State) (tIn : Nat) : Nat × State :=
  let timestamp := u32sub tIn st.tsOffset
  if st.tsExtraOffsets.isEmpty = true then (timestamp, st)
  else
    let er : Nat × State :=
      match lookupAssoc st.tsExtraOffsets tIn with
      | some e => (e, st)
      | none =>
        if timestamp < st.rtpStream.maxPacketTs then
          let e := st.rtpStream.maxPacketTs - timestamp + 1
          (e, { st with tsExtraOffsets := st.tsExtraOffsets ++ [(tIn, e)] })
        else (0, st)
    let extra := er.1
    let st := er.2
    let timestamp := u32 (timestamp + extra)
    let cnt := if extra ≠ 0 then st.tsExtraOffetPacketCount + 1 else st.tsExtraOffetPacketCount
    if (extra ≠ 0 ∧ cnt > 200) ∨ cnt > 500 then
      (timestamp, { st with tsExtraOffsets := [], tsExtraOffetPacketCount := 0 })
    else (timestamp, { st with tsExtraOffetPacketCount := cnt })

/-- The NTP-anchored timestamp offset for a sync packet arriving on a
non-reference layer (lines 840-870).  Returns `none` exactly when the
source would hit a fatal assert or a null dereference (no stream or no
sender report for the reference or current layer). -/
def ntpTsOffset (st : State) : Option Nat :=
  match slotAt st st.tsReferenceSpatialLayer, slotAt st st.currentSpatialLayer with
  | some refS, some curS =>
    if refS.senderReportNtpMs = 0 ∨ curS.senderReportNtpMs = 0 then none
    else
      let ntpMs1 : Int := refS.senderReportNtpMs
      let ts1 : Nat := refS.senderReportTs
      let ntpMs2 : Int := curS.senderReportNtpMs
      let ts2 : Nat := curS.senderReportTs
      let diffMs : Int := ntpMs2 - ntpMs1
      let diffTs : Int := Int.tdiv (diffMs * (st.rtpStream.clockRate : Int)) 1000
      let newTs2 : Nat := (((ts2 : Int) - diffTs) % (4294967296 : Int)).toNat
      some (u32sub newTs2 ts1)
  | _, _ => none

/-- The sync block of `SendRtpPacket` (lines 824-899), run when
`syncRequired` holds and a key frame arrived: sequence re-anchoring,
timestamp offset computation and the regression guard. -/
def syncStream (st : State) (pkt : RtpPacket) (spatialLayer : Int) : Option State :=
  let st := { st with rtpSeqManager := u16 (pkt.sequenceNumber + 65535) }
  let off? : Option Nat :=
    if spatialLayer = st.tsReferenceSpatialLayer then some 0
    else ntpTsOffset st
  match off? with
  | none => none
  | some off =>
    let st := { st with tsOffset := off, tsExtraOffsets := [], tsExtraOffetPacketCount := 0 }
    let st :=
      if u32sub pkt.timestamp st.tsOffset ≤ st.rtpStream.maxPacketTs then
        let e := u32 (u32sub st.rtpStream.maxPacketTs pkt.timestamp + st.tsOffset + 1)
        { st with tsExtraOffsets := [(pkt.timestamp, e)] }
      else st
    some { st with syncRequired := false }

/-- The emission tail of `SendRtpPacket` (lines 914-1016): timestamp
rewrite, sequence assignment, in-place packet rewrite, hand-over to the
send stream (`accept` is its verdict; `ReceivePacket` is further
modelled, from the spec, as raising `maxPacketTs` to any accepted
higher timestamp), and restoration of the original header fields and
payload. -/
def emitPacket (accept : Bool) (st : State) (pkt2 : RtpPacket) :
    State × RtpPacket × List Effect :=
  let tsr := rewriteTs st pkt2.timestamp
  let timestamp := tsr.1
  let st := tsr.2
  let seqOut := u16 (st.rtpSeqManager + 1)
  let st := { st with rtpSeqManager := seqOut }
  let origSsrc := pkt2.ssrc
  let origSeq := pkt2.sequenceNumber
  let origTimestamp := pkt2.timestamp
  let sent := { pkt2 with ssrc := st.outputSsrc, sequenceNumber := seqOut,
                          timestamp := timestamp }
  let st :=
    if accept = true then
      { st with rtpStream :=
        { st.rtpStream with maxPacketTs := max st.rtpStream.maxPacketTs timestamp } }
    else st
  let tr := [Effect.packetReceived sent.ssrc sent.sequenceNumber sent.timestamp]
    ++ (if accept = true then [Effect.packetToListener] else [])
  let restored := restorePayload
    { sent with ssrc := origSsrc, sequenceNumber := origSeq, timestamp := origTimestamp }
  (st, restored, tr)

/-- The payload-processing part of `SendRtpPacket` (lines 901-912):
run the codec handler, drop the packet (advancing the sequence mapping)
on reject, otherwise emit the layers-change notification when the
current temporal layer moved and continue with the emission tail. -/
def sendCore (proc : ProcFn) (accept : Bool) (st : State) (pkt : RtpPacket) :
    State × RtpPacket × List Effect :=
  let prevTL := st.encodingContext.currentTemporalLayer
  let pr := processPayload proc st.encodingContext pkt
  let st := { st with encodingContext := pr.2.1 }
  if pr.1 = false then (st, pr.2.2, [Effect.seqDropped pkt.sequenceNumber])
  else
    let tr2 : List Effect :=
      if prevTL ≠ st.encodingContext.currentTemporalLayer then [Effect.layersChange]
      else []
    let r := emitPacket accept st pr.2.2
    (r.1, r.2.1, tr2 ++ r.2.2)

/-- `SimulcastConsumer::SendRtpPacket` (lines 760-1017).  `proc` is the
codec decision used by `ProcessPayload`.  The result is `none` exactly
on the fatal paths (unknown SSRC, missing sender report asserts);
otherwise it is the final state, the packet as the caller sees it after
the call, and the emitted effects. -/
def SendRtpPacket (proc : ProcFn) (accept : Bool) (st : State) (pkt : RtpPacket) :
    Option (State × RtpPacket × List Effect) :=
  if IsActive st = false then some (st, pkt, [])
  else if st.targetTemporalLayer = -1 then some (st, pkt, [])
  else if st.supportedCodecPayloadTypes.contains pkt.payloadType = false then
    some (st, pkt, [])
  else
    match lookupSsrc st.mapMappedSsrcSpatialLayer pkt.ssrc with
    | none => none
    | some spatialLayer =>
      if st.currentSpatialLayer ≠ st.targetSpatialLayer ∧
         spatialLayer = st.targetSpatialLayer ∧ pkt.isKeyFrame = false then
        some (st, pkt, [])
      else
        let switching : Bool :=
          decide (st.currentSpatialLayer ≠ st.targetSpatialLayer ∧
                  spatialLayer = st.targetSpatialLayer)
        let st :=
          if switching = true then
            { st with currentSpatialLayer := st.targetSpatialLayer,
                      encodingContext :=
                        ⟨st.targetTemporalLayer, pkt.temporalLayer⟩,
                      rtpStream := { st.rtpStream with score := 10 },
                      syncRequired := true }
          else st
        let tr1 : List Effect :=
          if switching = true then [Effect.layersChange, Effect.scoreEmitted] else []
        if spatialLayer ≠ st.currentSpatialLayer then some (st, pkt, tr1)
        else if st.syncRequired = true ∧ pkt.isKeyFrame = false then some (st, pkt, tr1)
        else
          let st? : Option State :=
            if st.syncRequired = true then syncStream st pkt spatialLayer else some st
          match st? with
          | none => none
          | some st =>
            let r := sendCore proc accept st pkt
            some (r.1, r.2.1, tr1 ++ r.2.2)

/-- One public operation of the consumer, with its inputs. -/
inductive Step where
  | setPreferredLayers (s : Nat) (t : Option Nat) : Step
  | requestKeyFrame : Step
  | producerStreamAttach (sIdx : Nat) (ps : PStream) : Step
  | producerNewStream (sIdx : Nat) (ps : PStream) : Step
  | producerScore (sIdx : Nat) (score previousScore : Nat) : Step
  | producerSenderReport (sIdx : Nat) (ntp ts : Nat) (first : Bool) : Step
  | packet (proc : ProcFn) (accept : Bool) (pkt : RtpPacket) : Step
  | useBitrate (bitrate : Nat) (considerLoss : Bool) : Step
  | raiseTemporalLayer (bitrate : Nat) (considerLoss : Bool) : Step
  | commitLayers : Step
  | transportConnected : Step
  | transportDisconnected : Step
  | pausedEvent : Step
  | resumedEvent : Step
  | keyFrameRequestFromRemote : Step

/-- Run one public operation; `none` on the fatal assert paths. -/
def applyStep (st : State) : Step → Option (State × List Effect)
  | .setPreferredLayers s t =>
    let r := HandleSetPreferredLayers st s t
    some (r.1, r.2.1)
  | .requestKeyFrame => some (HandleRequestKeyFrame st)
  | .producerStreamAttach sIdx ps => some (ProducerRtpStream st sIdx ps)
  | .producerNewStream sIdx ps => some (ProducerNewRtpStream st sIdx ps)
  | .producerScore sIdx score prev =>
    let r := ProducerRtpStreamScore st sIdx score prev
    some (r.1, r.2.1)
  | .producerSenderReport sIdx ntp ts first =>
    some (ProducerRtcpSenderReport st sIdx ntp ts first)
  | .packet proc accept pkt =>
    (SendRtpPacket proc accept st pkt).map (fun r => (r.1, r.2.2))
  | .useBitrate b cl => some ((UseAvailableBitrate st b cl).1, [])
  | .raiseTemporalLayer b cl => (IncreaseTemporalLayer st b cl).map (fun r => (r.1, []))
  | .commitLayers =>
    let r := ApplyLayers st
    some (r.1, r.2.1)
  | .transportConnected => some (UserOnTransportConnected st)
  | .transportDisconnected => some (UserOnTransportDisconnected st)
  | .pausedEvent => some (UserOnPaused st)
  | .resumedEvent => some (UserOnResumed st)
  | .keyFrameRequestFromRemote => some (ReceiveKeyFrameRequest st)

/-- The state invariant of the claim: no target spatial layer implies
no current spatial layer. -/
def Inv (st : State) : Prop :=
  st.targetSpatialLayer = -1 → st.currentSpatialLayer = -1

/-- A healthy three-temporal-layer producer stream used in concrete
witnesses. -/
def ps0 : PStream :=
  { score := 10, activeTime := 5000, temporalLayers := 3,
    senderReportNtpMs := 1, senderReportTs := 0,
    bitrates := [100000, 180000, 260000], layerBitrates := [100000, 80000, 80000] }

/-- The output stream used in concrete witnesses. -/
def out0 : OutStream :=
  { maxPacketTs := 0, lossPercentage := 0, clockRate := 90000,
    spatialLayers := 2, temporalLayers := 3, score := 10, paused := false }

/-- A baseline consumer state used in concrete witnesses: active,
locally managed, two healthy producer streams, forwarding layer 0. -/
def st0 : State :=
  { transportConnected := true, paused := false, externallyManagedBitrate := false,
    syncRequired := false, kindVideo := true,
    preferredSpatialLayer := 1, preferredTemporalLayer := 2,
    targetSpatialLayer := 0, targetTemporalLayer := 0, currentSpatialLayer := 0,
    tsReferenceSpatialLayer := 0,
    provisionalTargetSpatialLayer := -1, provisionalTargetTemporalLayer := -1,
    tsOffset := 0, tsExtraOffsets := [], tsExtraOffetPacketCount := 0,
    producerRtpStreams := [some ps0, some ps0],
    mapMappedSsrcSpatialLayer := [(111, 0), (222, 1)],
    supportedCodecPayloadTypes := [96],
    consumableSsrcs := [111, 222],
    outputSsrc := 999,
    encodingContext := ⟨0, 0⟩,
    rtpStream := out0,
    rtpSeqManager := 0 }

/-- A codec decision that forwards every packet unchanged, used in
concrete witnesses. -/
def procId : ProcFn := fun ctx payload => (true, ctx, payload)

/-- Claim C3 (code_bug): the spec table says the virtual bitrate for a
loss percentage above 10 is `(1 - 0.5 * loss / 100) * bitrate`; the
source computes `lossPercentage / 100` with integer division, so for
`loss = 20, bitrate = 1000` it yields `1000` where the spec formula
yields `900` (the penalty branch is dead for any loss below 100). -/
theorem virtualBitrate_loss_integer_division :
    virtualBitrate true 20 1000 = 1000 ∧
    (1 - (1 / 2 : ℚ) * (20 / 100)) * 1000 = 900 := by
  constructor
  · simp only [virtualBitrate]
    norm_num
    rfl
  · norm_num

/-- Claim C5: for a spatial layer whose producer slot is non-empty,
`CanSwitchToSpatialLayer` returns true iff there is no TS reference
layer yet, or the layer is the TS reference layer, or both the
reference stream and the candidate stream have a non-zero
`senderReportNtpMs`. -/
theorem CanSwitchToSpatialLayer_iff (st : State) (s : Int)
    (h : (slotAt st s).isSome = true) :
    CanSwitchToSpatialLayer st s = true ↔
      (st.tsReferenceSpatialLayer = -1 ∨ s = st.tsReferenceSpatialLayer ∨
       (∃ refS cand, slotAt st st.tsReferenceSpatialLayer = some refS ∧
         slotAt st s = some cand ∧
         refS.senderReportNtpMs ≠ 0 ∧ cand.senderReportNtpMs ≠ 0)) := by
  obtain ⟨cand, hcand⟩ := Option.isSome_iff_exists.mp h
  unfold CanSwitchToSpatialLayer ntpAt
  cases href : slotAt st st.tsReferenceSpatialLayer with
  | none => simp [href, hcand]
  | some refS => simp [href, hcand, or_assoc]

/-- Witness for C5 at a concrete input: layer 1 of the baseline state,
whose slot is non-empty; both streams have sender reports, so the
switch is allowed. -/
theorem CanSwitchToSpatialLayer_iff_witness :
    (slotAt st0 1).isSome = true ∧
    (CanSwitchToSpatialLayer st0 1 = true ↔
      (st0.tsReferenceSpatialLayer = -1 ∨ (1 : Int) = st0.tsReferenceSpatialLayer ∨
       (∃ refS cand, slotAt st0 st0.tsReferenceSpatialLayer = some refS ∧
         slotAt st0 1 = some cand ∧
         refS.senderReportNtpMs ≠ 0 ∧ cand.senderReportNtpMs ≠ 0))) :=
  ⟨by decide, CanSwitchToSpatialLayer_iff st0 1 (by decide)⟩

/-- Claim C6: on an active consumer, `UseAvailableBitrate` returns the
scanned used bitrate `u` when `u ≤ bitrate`, the given `bitrate` when
`bitrate < u ≤ virtualBitrate`, and `u` otherwise. -/
theorem UseAvailableBitrate_return_reshape (st : State) (bitrate : Nat)
    (considerLoss : Bool) (h : IsActive st = true) :
    (UseAvailableBitrate st bitrate considerLoss).2 =
      (let vb := virtualBitrate considerLoss st.rtpStream.lossPercentage bitrate
       let used := (uabOuter
         { st with provisionalTargetSpatialLayer := -1,
                   provisionalTargetTemporalLayer := -1 } vb
         st.producerRtpStreams 0 (-1, -1, 0, 0)).2.2
       if used ≤ bitrate then used else if used ≤ vb then bitrate else used) := by
  unfold UseAvailableBitrate
  simp only [h]
  simp [IsActive] at h
  simp [IsActive, h]

/-- Witness for C6: a concrete externally-managed active state; the
scan uses 180000 of the 200000 budget (spec scenario 3). -/
theorem UseAvailableBitrate_return_reshape_witness :
    IsActive { st0 with externallyManagedBitrate := true } = true ∧
    (UseAvailableBitrate { st0 with externallyManagedBitrate := true } 200000 true).2 =
      (let vb := virtualBitrate true
        { st0 with externallyManagedBitrate := true }.rtpStream.lossPercentage 200000
       let used := (uabOuter
         { { st0 with externallyManagedBitrate := true } with
             provisionalTargetSpatialLayer := -1,
             provisionalTargetTemporalLayer := -1 } vb
         { st0 with externallyManagedBitrate := true }.producerRtpStreams 0
         (-1, -1, 0, 0)).2.2
       if used ≤ 200000 then used else if used ≤ vb then 200000 else used) :=
  ⟨by decide,
   UseAvailableBitrate_return_reshape { st0 with externallyManagedBitrate := true }
     200000 true (by decide)⟩

/-- Claim C9: a `CONSUMER_SET_PREFERRED_LAYERS` request whose clamped
layers equal the stored preferred layers leaves the whole state
unchanged, emits nothing and does not invoke `MayChangeLayers`. -/
theorem HandleSetPreferredLayers_idempotent (st : State) (s : Nat) (t? : Option Nat)
    (hS : clampPreferredSpatial st s = st.preferredSpatialLayer)
    (hT : clampPreferredTemporal st t? = st.preferredTemporalLayer) :
    HandleSetPreferredLayers st s t? = (st, [], false) := by
  unfold HandleSetPreferredLayers
  rw [hS, hT]
  simp

/-- Witness for C9: repeating the stored preferred layers `(1, 2)` of
the baseline state is a no-op. -/
theorem HandleSetPreferredLayers_idempotent_witness :
    clampPreferredSpatial st0 1 = st0.preferredSpatialLayer ∧
    clampPreferredTemporal st0 (some 2) = st0.preferredTemporalLayer ∧
    HandleSetPreferredLayers st0 1 (some 2) = (st0, [], false) :=
  ⟨by decide, by decide,
   HandleSetPreferredLayers_idempotent st0 1 (some 2) (by decide) (by decide)⟩

set_option maxRecDepth 8000 in
/-- `UpdateTargetLayers` never touches the provisional target layers. -/
theorem UpdateTargetLayers_prov (st : State) (nS nT : Int) :
    (UpdateTargetLayers st nS nT).1.provisionalTargetSpatialLayer =
      st.provisionalTargetSpatialLayer ∧
    (UpdateTargetLayers st nS nT).1.provisionalTargetTemporalLayer =
      st.provisionalTargetTemporalLayer := by
  unfold UpdateTargetLayers
  simp only []
  split <;> split <;> (try split) <;> (try split) <;> simp

set_option maxRecDepth 8000 in
/-- Claim C10: `ApplyLayers` always resets the provisional target
layers to `-1` (also when inactive); it invokes `UpdateTargetLayers`
exactly when the consumer is active and the saved provisional pair
differs from the current target pair; and in all remaining cases the
state is unchanged apart from the provisional reset. -/
theorem ApplyLayers_frame (st : State) :
    (ApplyLayers st).1.provisionalTargetSpatialLayer = -1 ∧
    (ApplyLayers st).1.provisionalTargetTemporalLayer = -1 ∧
    ((ApplyLayers st).2.2 = true ↔
      (IsActive st = true ∧
       (st.provisionalTargetSpatialLayer ≠ st.targetSpatialLayer ∨
        st.provisionalTargetTemporalLayer ≠ st.targetTemporalLayer))) ∧
    ((ApplyLayers st).2.2 = false →
      (ApplyLayers st).1 = { st with provisionalTargetSpatialLayer := -1,
                                     provisionalTargetTemporalLayer := -1 }) := by
  unfold ApplyLayers
  simp only [IsActive]
  split
  · rename_i h
    simp_all
  · rename_i h
    split
    · rename_i hd
      have hp := UpdateTargetLayers_prov
        { st with provisionalTargetSpatialLayer := -1, provisionalTargetTemporalLayer := -1 }
        st.provisionalTargetSpatialLayer st.provisionalTargetTemporalLayer
      simp_all
    · rename_i hd
      simp_all

/-- Witness for C10 at the baseline state (inactive case is covered by
the universally quantified theorem; this instance exercises the
equal-pair no-op case). -/
theorem ApplyLayers_frame_witness :
    (ApplyLayers st0).1.provisionalTargetSpatialLayer = -1 ∧
    (ApplyLayers st0).1.provisionalTargetTemporalLayer = -1 ∧
    ((ApplyLayers st0).2.2 = true ↔
      (IsActive st0 = true ∧
       (st0.provisionalTargetSpatialLayer ≠ st0.targetSpatialLayer ∨
        st0.provisionalTargetTemporalLayer ≠ st0.targetTemporalLayer))) ∧
    ((ApplyLayers st0).2.2 = false →
      (ApplyLayers st0).1 = { st0 with provisionalTargetSpatialLayer := -1,
                                       provisionalTargetTemporalLayer := -1 }) :=
  ApplyLayers_frame st0

set_option maxRecDepth 8000 in
/-- Claim C8: on a producer stream score change, `MayChangeLayers` is
invoked iff the consumer is active and the bitrate is not externally
managed or the new or previous score is zero; otherwise the target
layers are unchanged by the event. -/
theorem ProducerRtpStreamScore_reeval (st : State) (sIdx score prev : Nat) :
    ((ProducerRtpStreamScore st sIdx score prev).2.2 = true ↔
      (IsActive st = true ∧
       (st.externallyManagedBitrate = false ∨ score = 0 ∨ prev = 0))) ∧
    ((ProducerRtpStreamScore st sIdx score prev).2.2 = false →
      ((ProducerRtpStreamScore st sIdx score prev).1.targetSpatialLayer =
         st.targetSpatialLayer ∧
       (ProducerRtpStreamScore st sIdx score prev).1.targetTemporalLayer =
         st.targetTemporalLayer)) := by
  unfold ProducerRtpStreamScore
  simp only [IsActive]
  split <;> simp_all

/-- Witness for C8: a score-drop event on the current stream of the
baseline (locally managed, active) state re-evaluates the layers. -/
theorem ProducerRtpStreamScore_reeval_witness :
    ((ProducerRtpStreamScore st0 0 3 10).2.2 = true ↔
      (IsActive st0 = true ∧
       (st0.externallyManagedBitrate = false ∨ (3 : Nat) = 0 ∨ (10 : Nat) = 0))) ∧
    ((ProducerRtpStreamScore st0 0 3 10).2.2 = false →
      ((ProducerRtpStreamScore st0 0 3 10).1.targetSpatialLayer = st0.targetSpatialLayer ∧
       (ProducerRtpStreamScore st0 0 3 10).1.targetTemporalLayer = st0.targetTemporalLayer)) :=
  ProducerRtpStreamScore_reeval st0 0 3 10

/-- The `GetBitratePriority` scan returns its accumulator immediately
when it is set and the index is already past the preferred layer. -/
theorem gbpLoop_break (pref : Int) (l : List (Option PStream)) (i : Nat) (prio : Int)
    (h1 : prio ≠ -1) (h2 : (i : Int) > pref) : gbpLoop pref l i prio = prio := by
  cases l with
  | nil => rfl
  | cons o rest =>
    unfold gbpLoop
    rw [if_pos ⟨h2, h1⟩]

/-- Once the scan accumulator holds a layer not above the preferred
one, the result stays at or below the preferred layer. -/
theorem gbpLoop_le_pref (pref : Int) (l : List (Option PStream)) :
    ∀ (i : Nat) (prio : Int), prio ≠ -1 → prio ≤ pref → gbpLoop pref l i prio ≤ pref := by
  induction l with
  | nil =>
    intro i prio _ h2
    simpa [gbpLoop] using h2
  | cons o rest ih =>
    intro i prio h1 h2
    unfold gbpLoop
    by_cases hb : (i : Int) > pref ∧ prio ≠ -1
    · rw [if_pos hb]
      exact h2
    · rw [if_neg hb]
      have hip : (i : Int) ≤ pref := by
        rcases not_and_or.mp hb with h | h
        · exact le_of_not_lt h
        · exact absurd h1 h
      cases o with
      | none => exact ih (i + 1) prio h1 h2
      | some ps =>
        dsimp only
        by_cases hs : ps.score = 0
        · rw [if_pos hs]
          exact ih (i + 1) prio h1 h2
        · rw [if_neg hs]
          exact ih (i + 1) (i : Int) (by omega) hip

/-- With no eligible slot the scan returns its accumulator. -/
theorem gbpLoop_none (pref : Int) (l : List (Option PStream)) :
    ∀ (i : Nat) (prio : Int), (∀ k, ¬ eligAt l k) → gbpLoop pref l i prio = prio := by
  induction l with
  | nil => intro i prio _; rfl
  | cons o rest ih =>
    intro i prio h
    unfold gbpLoop
    by_cases hb : (i : Int) > pref ∧ prio ≠ -1
    · rw [if_pos hb]
    · rw [if_neg hb]
      have htail : ∀ k, ¬ eligAt rest k := by
        intro k
        have := h (k + 1)
        simpa [eligAt] using this
      cases o with
      | none => exact ih (i + 1) prio htail
      | some ps =>
        have hs : ps.score = 0 := by
          by_contra hs
          exact h 0 ⟨ps, by simp, hs⟩
        dsimp only
        rw [if_pos hs]
        exact ih (i + 1) prio htail

/-- The scan yields `-1` only from an unset accumulator with no
eligible slot. -/
theorem gbpLoop_eq_neg (pref : Int) (l : List (Option PStream)) :
    ∀ (i : Nat) (prio : Int), gbpLoop pref l i prio = -1 →
      prio = -1 ∧ ∀ k, ¬ eligAt l k := by
  induction l with
  | nil =>
    intro i prio h
    exact ⟨h, by intro k; simp [eligAt]⟩
  | cons o rest ih =>
    intro i prio h
    unfold gbpLoop at h
    by_cases hb : (i : Int) > pref ∧ prio ≠ -1
    · rw [if_pos hb] at h
      exact absurd h hb.2
    · rw [if_neg hb] at h
      cases o with
      | none =>
        obtain ⟨h1, h2⟩ := ih _ _ h
        refine ⟨h1, fun k => ?_⟩
        cases k with
        | zero => simp [eligAt]
        | succ k =>
          have := h2 k
          simpa [eligAt] using this
      | some ps =>
        dsimp only at h
        by_cases hs : ps.score = 0
        · rw [if_pos hs] at h
          obtain ⟨h1, h2⟩ := ih _ _ h
          refine ⟨h1, fun k => ?_⟩
          cases k with
          | zero =>
            intro ⟨ps2, hg, hs2⟩
            simp at hg
            exact hs2 (hg ▸ hs)
          | succ k =>
            have := h2 k
            simpa [eligAt] using this
        · rw [if_neg hs] at h
          obtain ⟨h1, _⟩ := ih _ _ h
          exact absurd h1 (by omega)

/-- The scan result is the accumulator or an eligible absolute index. -/
theorem gbpLoop_mem (pref : Int) (l : List (Option PStream)) :
    ∀ (i : Nat) (prio : Int), gbpLoop pref l i prio = prio ∨
      ∃ k, eligAt l k ∧ gbpLoop pref l i prio = (i : Int) + (k : Int) := by
  induction l with
  | nil => intro i prio; left; rfl
  | cons o rest ih =>
    intro i prio
    unfold gbpLoop
    by_cases hb : (i : Int) > pref ∧ prio ≠ -1
    · rw [if_pos hb]
      left
      rfl
    · rw [if_neg hb]
      cases o with
      | none =>
        rcases ih (i + 1) prio with h | ⟨k, hk, he⟩
        · left; exact h
        · right
          refine ⟨k + 1, by simpa [eligAt] using hk, ?_⟩
          rw [he]
          push_cast
          ring
      | some ps =>
        dsimp only
        by_cases hs : ps.score = 0
        · rw [if_pos hs]
          rcases ih (i + 1) prio with h | ⟨k, hk, he⟩
          · left; exact h
          · right
            refine ⟨k + 1, by simpa [eligAt] using hk, ?_⟩
            rw [he]
            push_cast
            ring
        · rw [if_neg hs]
          rcases ih (i + 1) (i : Int) with h | ⟨k, hk, he⟩
          · right
            exact ⟨0, ⟨ps, by simp, hs⟩, by simpa using h⟩
          · right
            refine ⟨k + 1, by simpa [eligAt] using hk, ?_⟩
            rw [he]
            push_cast
            ring

/-- With an unset accumulator and an eligible index at or below the
preferred layer, the scan result stays at or below the preferred
layer. -/
theorem gbpLoop_cap (pref : Int) (l : List (Option PStream)) :
    ∀ (i : Nat) (prio : Int), prio ≤ pref →
      (∃ k, eligAt l k ∧ (i : Int) + (k : Int) ≤ pref) →
      gbpLoop pref l i prio ≤ pref := by
  induction l with
  | nil =>
    intro i prio _ h
    obtain ⟨k, hk, _⟩ := h
    exact absurd hk (by simp [eligAt])
  | cons o rest ih =>
    intro i prio hp h
    obtain ⟨k, hk, hkle⟩ := h
    unfold gbpLoop
    have hile : (i : Int) ≤ pref := by omega
    have hb : ¬((i : Int) > pref ∧ prio ≠ -1) := fun hc => absurd hc.1 (not_lt.mpr hile)
    rw [if_neg hb]
    cases o with
    | none =>
      cases k with
      | zero => exact absurd hk (by simp [eligAt])
      | succ k2 =>
        refine ih (i + 1) prio hp ⟨k2, by simpa [eligAt] using hk, by push_cast at hkle ⊢; omega⟩
    | some ps =>
      dsimp only
      by_cases hs : ps.score = 0
      · rw [if_pos hs]
        cases k with
        | zero =>
          obtain ⟨ps2, hg, hs2⟩ := hk
          simp at hg
          exact absurd (hg ▸ hs) hs2
        | succ k2 =>
          refine ih (i + 1) prio hp ⟨k2, by simpa [eligAt] using hk, by push_cast at hkle ⊢; omega⟩
      · rw [if_neg hs]
        exact gbpLoop_le_pref pref rest (i + 1) (i : Int) (by omega) hile

/-- When every eligible index lies above the preferred layer, the scan
(with unset accumulator) returns the first eligible index. -/
theorem gbpLoop_fallback (pref : Int) (l : List (Option PStream)) :
    ∀ (i : Nat), (∀ k, eligAt l k → (i : Int) + (k : Int) > pref) →
      ∀ k0, eligAt l k0 → (∀ j, j < k0 → ¬ eligAt l j) →
      gbpLoop pref l i (-1) = (i : Int) + (k0 : Int) := by
  induction l with
  | nil =>
    intro i _ k0 hk0 _
    exact absurd hk0 (by simp [eligAt])
  | cons o rest ih =>
    intro i hgt k0 hk0 hmin
    unfold gbpLoop
    have hb : ¬((i : Int) > pref ∧ (-1 : Int) ≠ -1) := by simp
    rw [if_neg hb]
    cases k0 with
    | zero =>
      obtain ⟨ps, hg, hs⟩ := hk0
      simp at hg
      subst hg
      dsimp only
      rw [if_neg hs]
      have hig : (i : Int) > pref := by simpa using hgt 0 ⟨ps, by simp, hs⟩
      rw [gbpLoop_break pref rest (i + 1) (i : Int) (by omega) (by push_cast; omega)]
      simp
    | succ k =>
      have hhead : ¬ eligAt (o :: rest) 0 := hmin 0 (Nat.succ_pos k)
      have hgt2 : ∀ j, eligAt rest j → ((i + 1 : Nat) : Int) + (j : Int) > pref := by
        intro j hj
        have := hgt (j + 1) (by simpa [eligAt] using hj)
        push_cast at this ⊢
        omega
      have hk2 : eligAt rest k := by simpa [eligAt] using hk0
      have hmin2 : ∀ j, j < k → ¬ eligAt rest j := by
        intro j hj hcon
        exact hmin (j + 1) (by omega) (by simpa [eligAt] using hcon)
      cases o with
      | none =>
        rw [ih (i + 1) hgt2 k hk2 hmin2]
        push_cast
        ring
      | some ps =>
        have hs : ps.score = 0 := by
          by_contra hs
          exact hhead ⟨ps, by simp, hs⟩
        dsimp only
        rw [if_pos hs]
        rw [ih (i + 1) hgt2 k hk2 hmin2]
        push_cast
        ring

/-- A state with only a producer stream above the preferred spatial
layer: active, preferred layer 0, slot 0 empty, slot 1 healthy. -/
def stC4 : State :=
  { st0 with preferredSpatialLayer := 0, producerRtpStreams := [none, some ps0] }

/-- Counterexample to claim C4: when the only eligible producer stream
lies above the preferred spatial layer, `GetBitratePriority` returns
one plus that layer, exceeding the claimed cap
`preferredSpatialLayer + 1`. -/
theorem GetBitratePriority_cap_cex :
    IsActive stC4 = true ∧
    stC4.preferredSpatialLayer = 0 ∧
    GetBitratePriority stC4 = 2 ∧
    ¬(GetBitratePriority stC4 ≤ stC4.preferredSpatialLayer + 1) := by
  refine ⟨by decide, by decide, by decide, by decide⟩

/-- Claim C4 as amended: `GetBitratePriority` returns 0 when not
active, 1 when active with no eligible producer stream (a non-empty
slot with positive score); otherwise one plus a chosen eligible
spatial-layer index.  The chosen index is capped at
`preferredSpatialLayer` whenever some eligible index is at most
`preferredSpatialLayer`; when every eligible index exceeds the
preferred layer the result is one plus the lowest eligible index,
which exceeds `preferredSpatialLayer + 1`. -/
theorem GetBitratePriority_amended (st : State) :
    (IsActive st = false → GetBitratePriority st = 0) ∧
    (IsActive st = true → (∀ k, ¬ eligAt st.producerRtpStreams k) →
      GetBitratePriority st = 1) ∧
    (IsActive st = true →
      (∃ k, eligAt st.producerRtpStreams k ∧ (k : Int) ≤ st.preferredSpatialLayer) →
      GetBitratePriority st ≤ st.preferredSpatialLayer + 1) ∧
    (IsActive st = true → (∃ k, eligAt st.producerRtpStreams k) →
      ∃ k, eligAt st.producerRtpStreams k ∧ GetBitratePriority st = (k : Int) + 1) ∧
    (IsActive st = true →
      (∀ k, eligAt st.producerRtpStreams k → (k : Int) > st.preferredSpatialLayer) →
      ∀ k0, eligAt st.producerRtpStreams k0 →
        (∀ j, j < k0 → ¬ eligAt st.producerRtpStreams j) →
        GetBitratePriority st = (k0 : Int) + 1) := by
  refine ⟨?_, ?_, ?_, ?_, ?_⟩
  · intro h
    simp [GetBitratePriority, h]
  · intro h hne
    rw [GetBitratePriority]
    rw [h]
    simp only [Bool.true_eq_false, if_false]
    rw [gbpLoop_none st.preferredSpatialLayer st.producerRtpStreams 0 (-1) hne]
    simp
  · intro h hex
    obtain ⟨k, hk, hkle⟩ := hex
    have hpref : (0 : Int) ≤ st.preferredSpatialLayer := by
      have : (0 : Int) ≤ (k : Int) := Int.natCast_nonneg k
      omega
    rw [GetBitratePriority, h]
    simp only [Bool.true_eq_false, if_false]
    have hcap := gbpLoop_cap st.preferredSpatialLayer st.producerRtpStreams 0 (-1)
      (by omega) ⟨k, hk, by push_cast; omega⟩
    by_cases hp : gbpLoop st.preferredSpatialLayer st.producerRtpStreams 0 (-1) = -1
    · rw [if_pos hp]
      omega
    · rw [if_neg hp]
      omega
  · intro h hex
    rw [GetBitratePriority, h]
    simp only [Bool.true_eq_false, if_false]
    by_cases hp : gbpLoop st.preferredSpatialLayer st.producerRtpStreams 0 (-1) = -1
    · obtain ⟨k, hk⟩ := hex
      obtain ⟨_, hnone⟩ := gbpLoop_eq_neg st.preferredSpatialLayer st.producerRtpStreams 0 (-1) hp
      exact absurd hk (hnone k)
    · rw [if_neg hp]
      rcases gbpLoop_mem st.preferredSpatialLayer st.producerRtpStreams 0 (-1) with hm | ⟨k, hk, he⟩
      · exact absurd hm hp
      · refine ⟨k, hk, ?_⟩
        rw [he]
        simp
  · intro h hgt k0 hk0 hmin
    rw [GetBitratePriority, h]
    simp only [Bool.true_eq_false, if_false]
    have hf := gbpLoop_fallback st.preferredSpatialLayer st.producerRtpStreams 0
      (by intro k hk; simpa using hgt k hk) k0 hk0 hmin
    rw [hf]
    have : (0 : Int) + (k0 : Int) ≠ -1 := by
      have := Int.natCast_nonneg k0
      omega
    rw [if_neg (by push_cast at this ⊢; omega)]
    simp

/-- Witness for the amended C4 theorem at the baseline state: both
slots are eligible and the preferred layer is 1, so the priority is the
capped 1 + 1. -/
theorem GetBitratePriority_amended_witness :
    IsActive st0 = true ∧
    (∃ k, eligAt st0.producerRtpStreams k ∧ (k : Int) ≤ st0.preferredSpatialLayer) ∧
    GetBitratePriority st0 ≤ st0.preferredSpatialLayer + 1 :=
  ⟨by decide, ⟨0, by decide, by decide⟩,
   (GetBitratePriority_amended st0).2.2.1 (by decide) ⟨0, by decide, by decide⟩⟩

/-- The packet returned by the emission tail is the processed packet
with its payload restored. -/
theorem emitPacket_restores (accept : Bool) (st : State) (pkt2 : RtpPacket) :
    (emitPacket accept st pkt2).2.1 = restorePayload pkt2 := by
  cases pkt2
  rfl

/-- Restoring the payload after `processPayload` recovers a packet that
had no saved payload. -/
theorem restore_processPayload (proc : ProcFn) (ctx : EncCtx) (pkt : RtpPacket)
    (h : pkt.origPayload = none) :
    restorePayload (processPayload proc ctx pkt).2.2 = pkt := by
  obtain ⟨ssrc, seq, ts, pt, kf, tl, pl, op⟩ := pkt
  simp only at h
  subst h
  unfold processPayload
  by_cases hp : (proc ctx pl).1 = true
  · rw [if_pos hp]
    rfl
  · rw [if_neg hp]
    rfl

/-- `processPayload` leaves the packet untouched when it rejects it. -/
theorem processPayload_false (proc : ProcFn) (ctx : EncCtx) (pkt : RtpPacket)
    (h : (processPayload proc ctx pkt).1 = false) :
    (processPayload proc ctx pkt).2.2 = pkt := by
  unfold processPayload at h ⊢
  by_cases hp : (proc ctx pkt.payload).1 = true
  · rw [if_pos hp] at h
    simp at h
  · rw [if_neg hp]

/-- The packet returned by `sendCore` equals the inbound packet when
the latter carries no saved payload. -/
theorem sendCore_restores (proc : ProcFn) (accept : Bool) (st : State) (pkt : RtpPacket)
    (h : pkt.origPayload = none) :
    (sendCore proc accept st pkt).2.1 = pkt := by
  unfold sendCore
  by_cases hp : (processPayload proc st.encodingContext pkt).1 = false
  · rw [if_pos hp]
    exact processPayload_false proc st.encodingContext pkt hp
  · rw [if_neg hp]
    simp only [emitPacket_restores]
    exact restore_processPayload proc st.encodingContext pkt h

set_option maxRecDepth 16000 in
set_option maxHeartbeats 1000000 in
/-- Claim C2: on every exit path of `SendRtpPacket` that returns (every
non-fatal path: packet emitted, send-stream reject, or any drop path,
including the drop after `ProcessPayload` returns false), the inbound
packet is returned with its original ssrc, sequence number, timestamp
and payload. -/
theorem SendRtpPacket_restores (proc : ProcFn) (accept : Bool) (st : State)
    (pkt : RtpPacket) (h : pkt.origPayload = none) :
    ∀ st2 pkt2 tr, SendRtpPacket proc accept st pkt = some (st2, pkt2, tr) →
      pkt2 = pkt := by
  intro st2 pkt2 tr hr
  unfold SendRtpPacket at hr
  simp only [] at hr
  iterate 10 (all_goals try split at hr)
  all_goals
    first
    | exact Option.noConfusion hr
    | (injection hr with hr1
       injection hr1 with ha hb
       injection hb with hb1 hb2
       rw [← hb1] <;> exact sendCore_restores proc accept _ pkt h)

/-- The inbound packet of the C2 witness run. -/
def c2pkt : RtpPacket :=
  { ssrc := 111, sequenceNumber := 50, timestamp := 1000, payloadType := 96,
    isKeyFrame := false, temporalLayer := 0, payload := [7], origPayload := none }

/-- The state after the C2 witness run: one packet emitted. -/
def c2st : State :=
  { st0 with rtpSeqManager := 1, rtpStream := { out0 with maxPacketTs := 1000 } }

/-- Witness for C2: a concrete forwarded packet on the baseline state
comes back unchanged. -/
theorem SendRtpPacket_restores_witness :
    c2pkt.origPayload = none ∧ c2pkt = c2pkt :=
  ⟨rfl, SendRtpPacket_restores procId true st0 c2pkt rfl c2st c2pkt
    [Effect.packetReceived 999 1 1000, Effect.packetToListener] (by decide)⟩

/-- The timestamp of the first packet handed to the send stream in a
trace. -/
def emittedTs : List Effect → Option Nat
  | [] => none
  | Effect.packetReceived _ _ ts :: _ => some ts
  | _ :: rest => emittedTs rest

/-- `processPayload` never changes the packet timestamp. -/
theorem processPayload_timestamp (proc : ProcFn) (ctx : EncCtx) (pkt : RtpPacket) :
    (processPayload proc ctx pkt).2.2.timestamp = pkt.timestamp := by
  unfold processPayload
  simp only []
  split <;> rfl

/-- An association-list lookup that missed finds a freshly appended
binding. -/
theorem lookupAssoc_append_self (l : List (Nat × Nat)) (k e : Nat)
    (h : lookupAssoc l k = none) :
    lookupAssoc (l ++ [(k, e)]) k = some e := by
  induction l with
  | nil =>
    simp [lookupAssoc]
  | cons a l ih =>
    unfold lookupAssoc at h ⊢
    rw [List.cons_append, List.find?_cons] at *
    split at h
    · simp at h
    · exact ih h

/-- The timestamp rewrite on a non-sync packet with a non-empty extra
map, no stored entry and a regressing offset timestamp: a fresh extra
offset is generated, stored, and applied, yielding `maxPacketTs + 1`. -/
theorem rewriteTs_fresh (st : State) (tIn : Nat)
    (hNE : st.tsExtraOffsets ≠ [])
    (hNoStored : lookupAssoc st.tsExtraOffsets tIn = none)
    (hBelow : u32sub tIn st.tsOffset < st.rtpStream.maxPacketTs)
    (hMax : st.rtpStream.maxPacketTs + 1 < 4294967296)
    (hCnt : st.tsExtraOffetPacketCount + 1 ≤ 200) :
    (rewriteTs st tIn).1 = st.rtpStream.maxPacketTs + 1 ∧
    (rewriteTs st tIn).2.tsExtraOffsets =
      st.tsExtraOffsets ++
        [(tIn, st.rtpStream.maxPacketTs - u32sub tIn st.tsOffset + 1)] := by
  unfold rewriteTs
  have hemp : st.tsExtraOffsets.isEmpty = false := by
    simpa [List.isEmpty_iff] using hNE
  rw [hemp]
  simp only [Bool.false_eq_true, if_false, hNoStored]
  rw [if_pos hBelow]
  simp only [if_pos (show st.rtpStream.maxPacketTs - u32sub tIn st.tsOffset + 1 ≠ 0 by omega)]
  simp only [if_neg (show ¬((st.rtpStream.maxPacketTs - u32sub tIn st.tsOffset + 1 ≠ 0 ∧
    st.tsExtraOffetPacketCount + 1 > 200) ∨ st.tsExtraOffetPacketCount + 1 > 500) by omega)]
  refine ⟨?_, trivial⟩
  unfold u32
  rw [show u32sub tIn st.tsOffset +
    (st.rtpStream.maxPacketTs - u32sub tIn st.tsOffset + 1) =
    st.rtpStream.maxPacketTs + 1 by omega]
  exact Nat.mod_eq_of_lt hMax

/-- The emission tail emits the rewritten timestamp. -/
theorem emitPacket_emittedTs (accept : Bool) (st : State) (pkt2 : RtpPacket) :
    emittedTs (emitPacket accept st pkt2).2.2 =
      some (rewriteTs st pkt2.timestamp).1 := by
  unfold emitPacket
  simp only []
  split <;> rfl

/-- The emission tail does not change the extra-offset map after the
timestamp rewrite. -/
theorem emitPacket_extra (accept : Bool) (st : State) (pkt2 : RtpPacket) :
    (emitPacket accept st pkt2).1.tsExtraOffsets =
      (rewriteTs st pkt2.timestamp).2.tsExtraOffsets := by
  unfold emitPacket
  simp only []
  split <;> rfl

/-- `sendCore` under a forwarding codec decision and a regressing
offset timestamp with a non-empty extra map and no stored entry: the
packet is emitted with timestamp `maxPacketTs + 1` and the fresh extra
offset is stored. -/
theorem sendCore_fresh (proc : ProcFn) (accept : Bool) (st : State) (pkt : RtpPacket)
    (hProc : (proc st.encodingContext pkt.payload).1 = true)
    (hNE : st.tsExtraOffsets ≠ [])
    (hNoStored : lookupAssoc st.tsExtraOffsets pkt.timestamp = none)
    (hBelow : u32sub pkt.timestamp st.tsOffset < st.rtpStream.maxPacketTs)
    (hMax : st.rtpStream.maxPacketTs + 1 < 4294967296)
    (hCnt : st.tsExtraOffetPacketCount + 1 ≤ 200) :
    emittedTs (sendCore proc accept st pkt).2.2 =
      some (st.rtpStream.maxPacketTs + 1) ∧
    lookupAssoc (sendCore proc accept st pkt).1.tsExtraOffsets pkt.timestamp =
      some (st.rtpStream.maxPacketTs - u32sub pkt.timestamp st.tsOffset + 1) := by
  have hpr1 : (processPayload proc st.encodingContext pkt).1 = true := by
    unfold processPayload
    simp only []
    rw [if_pos hProc]
  unfold sendCore
  simp only []
  rw [if_neg (by simp [hpr1])]
  have hfresh := rewriteTs_fresh
    { st with encodingContext := (processPayload proc st.encodingContext pkt).2.1 }
    pkt.timestamp hNE hNoStored hBelow hMax hCnt
  constructor
  · show emittedTs (_ ++ _) = _
    split
    · rw [List.singleton_append]
      rw [show ∀ l : List Effect, emittedTs (Effect.layersChange :: l) = emittedTs l
        from fun l => rfl]
      rw [emitPacket_emittedTs, processPayload_timestamp, hfresh.1]
    · rw [List.nil_append, emitPacket_emittedTs, processPayload_timestamp, hfresh.1]
  · rw [emitPacket_extra, processPayload_timestamp, hfresh.2]
    exact lookupAssoc_append_self st.tsExtraOffsets pkt.timestamp _ hNoStored

set_option maxRecDepth 16000 in
set_option maxHeartbeats 1000000 in
/-- Claim C1 as amended: for a forwarded non-sync packet on the current
layer whose offset timestamp is below `maxPacketTs`, with no stored
extra offset, `SendRtpPacket` generates and applies a fresh extra
offset `maxPacketTs - T_out + 1` only when `tsExtraOffsets` is
non-empty; the packet is then emitted with timestamp `maxPacketTs + 1`
(not less than `maxPacketTs`) and the fresh offset is stored. -/
theorem SendRtpPacket_extra_offset_amended (proc : ProcFn) (accept : Bool)
    (st : State) (pkt : RtpPacket)
    (hA : IsActive st = true)
    (hT : st.targetTemporalLayer ≠ -1)
    (hPt : st.supportedCodecPayloadTypes.contains pkt.payloadType = true)
    (hMap : lookupSsrc st.mapMappedSsrcSpatialLayer pkt.ssrc = some st.currentSpatialLayer)
    (hSync : st.syncRequired = false)
    (hProc : (proc st.encodingContext pkt.payload).1 = true)
    (hNE : st.tsExtraOffsets ≠ [])
    (hNoStored : lookupAssoc st.tsExtraOffsets pkt.timestamp = none)
    (hBelow : u32sub pkt.timestamp st.tsOffset < st.rtpStream.maxPacketTs)
    (hMax : st.rtpStream.maxPacketTs + 1 < 4294967296)
    (hCnt : st.tsExtraOffetPacketCount + 1 ≤ 200) :
    (SendRtpPacket proc accept st pkt).map
      (fun r => (emittedTs r.2.2, lookupAssoc r.1.tsExtraOffsets pkt.timestamp)) =
      some (some (st.rtpStream.maxPacketTs + 1),
            some (st.rtpStream.maxPacketTs - u32sub pkt.timestamp st.tsOffset + 1)) := by
  unfold SendRtpPacket
  rw [if_neg (by simp [hA])]
  rw [if_neg hT]
  rw [if_neg (show ¬(st.supportedCodecPayloadTypes.contains pkt.payloadType = false) by
    rw [hPt]
    simp)]
  rw [hMap]
  simp only []
  rw [if_neg (fun hc => hc.1 hc.2.1)]
  have hsw : decide (st.currentSpatialLayer ≠ st.targetSpatialLayer ∧
      st.currentSpatialLayer = st.targetSpatialLayer) = false :=
    decide_eq_false (fun hc => hc.1 hc.2)
  simp only [hsw, Bool.false_eq_true, if_false]
  rw [if_neg (show ¬st.currentSpatialLayer ≠ st.currentSpatialLayer by simp)]
  rw [if_neg (fun hc => by rw [hSync] at hc; exact Bool.false_ne_true hc.1)]
  rw [if_neg (by simp [hSync])]
  simp only [Option.map_some', List.nil_append]
  have hf := sendCore_fresh proc accept st pkt hProc hNE hNoStored hBelow hMax hCnt
  rw [hf.1, hf.2]

/-- First inbound packet of the C1 counterexample run. -/
def c1pktA : RtpPacket :=
  { ssrc := 111, sequenceNumber := 50, timestamp := 1000, payloadType := 96,
    isKeyFrame := false, temporalLayer := 0, payload := [1], origPayload := none }

/-- Second (re-ordered, older-timestamp) inbound packet of the C1
counterexample run. -/
def c1pktB : RtpPacket :=
  { ssrc := 111, sequenceNumber := 51, timestamp := 990, payloadType := 96,
    isKeyFrame := false, temporalLayer := 0, payload := [1], origPayload := none }

/-- The state between the two C1 counterexample packets: one packet
emitted with timestamp 1000, so `maxPacketTs = 1000`, with an empty
`tsExtraOffsets` map. -/
def c1mid : State :=
  { st0 with rtpSeqManager := 1, rtpStream := { out0 with maxPacketTs := 1000 } }

/-- Counterexample to claim C1: after emitting timestamp 1000
(`maxPacketTs = 1000`), a forwarded non-sync packet with offset
timestamp 990 below `maxPacketTs` and no stored extra offset is emitted
with timestamp 990 — less than `maxPacketTs` and decreasing — and no
fresh extra offset is generated, because `tsExtraOffsets` is empty. -/
theorem SendRtpPacket_ts_regression_cex :
    SendRtpPacket procId true st0 c1pktA =
      some (c1mid, c1pktA, [Effect.packetReceived 999 1 1000, Effect.packetToListener]) ∧
    SendRtpPacket procId true c1mid c1pktB =
      some ({ c1mid with rtpSeqManager := 2 }, c1pktB,
        [Effect.packetReceived 999 2 990, Effect.packetToListener]) ∧
    c1mid.syncRequired = false ∧
    c1mid.tsExtraOffsets = [] ∧
    lookupAssoc c1mid.tsExtraOffsets c1pktB.timestamp = none ∧
    u32sub c1pktB.timestamp c1mid.tsOffset = 990 ∧
    c1mid.rtpStream.maxPacketTs = 1000 ∧
    990 < 1000 ∧
    ({ c1mid with rtpSeqManager := 2 } : State).tsExtraOffsets = [] := by
  refine ⟨by decide, by decide, by decide, by decide, by decide, by decide, by decide,
    by decide, by decide⟩

/-- The state of the C1 amended-claim witness: forwarding on the
reference layer with a non-empty extra-offset map and `maxPacketTs =
1000`. -/
def c1wst : State :=
  { st0 with tsExtraOffsets := [(500, 7)],
             rtpStream := { out0 with maxPacketTs := 1000 } }

/-- The packet of the C1 amended-claim witness: non-sync, offset
timestamp 990 below `maxPacketTs`, no stored extra offset. -/
def c1wpkt : RtpPacket :=
  { ssrc := 111, sequenceNumber := 60, timestamp := 990, payloadType := 96,
    isKeyFrame := false, temporalLayer := 0, payload := [1], origPayload := none }

/-- Witness for the amended C1 theorem: the fresh extra offset
`1000 - 990 + 1 = 11` is generated, stored and applied, and the packet
is emitted with timestamp 1001. -/
theorem SendRtpPacket_extra_offset_amended_witness :
    IsActive c1wst = true ∧
    c1wst.tsExtraOffsets ≠ [] ∧
    lookupAssoc c1wst.tsExtraOffsets c1wpkt.timestamp = none ∧
    u32sub c1wpkt.timestamp c1wst.tsOffset < c1wst.rtpStream.maxPacketTs ∧
    (SendRtpPacket procId true c1wst c1wpkt).map
      (fun r => (emittedTs r.2.2, lookupAssoc r.1.tsExtraOffsets c1wpkt.timestamp)) =
      some (some (c1wst.rtpStream.maxPacketTs + 1),
            some (c1wst.rtpStream.maxPacketTs - u32sub c1wpkt.timestamp c1wst.tsOffset + 1)) :=
  ⟨by decide, by decide, by decide, by decide,
   SendRtpPacket_extra_offset_amended procId true c1wst c1wpkt (by decide) (by decide)
     (by decide) (by decide) (by decide) (by decide) (by decide) (by decide) (by decide)
     (by decide) (by decide)⟩

set_option maxRecDepth 8000 in
/-- `UpdateTargetLayers` establishes the target/current invariant
unconditionally. -/
theorem Inv_UpdateTargetLayers (st : State) (nS nT : Int) :
    Inv (UpdateTargetLayers st nS nT).1 := by
  unfold UpdateTargetLayers Inv
  simp only []
  split <;> split <;> (try split) <;> (try split) <;> simp_all

/-- `MayChangeLayers` preserves the target/current invariant. -/
theorem Inv_MayChangeLayers (st : State) (force : Bool) (h : Inv st) :
    Inv (MayChangeLayers st force).1 := by
  unfold MayChangeLayers
  simp only []
  split
  · split
    · split <;> exact h
    · exact Inv_UpdateTargetLayers st _ _
  · exact h

/-- The timestamp rewrite does not touch the layer registers. -/
theorem rewriteTs_layers (st : State) (tIn : Nat) :
    (rewriteTs st tIn).2.targetSpatialLayer = st.targetSpatialLayer ∧
    (rewriteTs st tIn).2.currentSpatialLayer = st.currentSpatialLayer := by
  unfold rewriteTs
  simp only []
  iterate 5 (all_goals try split)
  all_goals exact ⟨rfl, rfl⟩

/-- The emission tail does not touch the layer registers. -/
theorem emitPacket_layers (accept : Bool) (st : State) (pkt2 : RtpPacket) :
    (emitPacket accept st pkt2).1.targetSpatialLayer = st.targetSpatialLayer ∧
    (emitPacket accept st pkt2).1.currentSpatialLayer = st.currentSpatialLayer := by
  have hr := rewriteTs_layers st pkt2.timestamp
  unfold emitPacket
  simp only []
  split <;> exact ⟨hr.1, hr.2⟩

/-- `sendCore` does not touch the layer registers. -/
theorem sendCore_layers (proc : ProcFn) (accept : Bool) (st : State) (pkt : RtpPacket) :
    (sendCore proc accept st pkt).1.targetSpatialLayer = st.targetSpatialLayer ∧
    (sendCore proc accept st pkt).1.currentSpatialLayer = st.currentSpatialLayer := by
  unfold sendCore
  simp only []
  split
  · exact ⟨rfl, rfl⟩
  · exact ⟨(emitPacket_layers accept _ _).1, (emitPacket_layers accept _ _).2⟩

/-- The sync block does not touch the layer registers. -/
theorem syncStream_layers (st : State) (pkt : RtpPacket) (sl : Int) (st2 : State)
    (h : syncStream st pkt sl = some st2) :
    st2.targetSpatialLayer = st.targetSpatialLayer ∧
    st2.currentSpatialLayer = st.currentSpatialLayer := by
  unfold syncStream at h
  simp only [] at h
  iterate 6 (all_goals try split at h)
  all_goals
    first
    | exact Option.noConfusion h
    | (injection h with h1
       rw [← h1]
       exact ⟨rfl, rfl⟩)

/-- `sendCore` preserves the target/current invariant. -/
theorem Inv_sendCore (proc : ProcFn) (accept : Bool) (st : State) (pkt : RtpPacket)
    (h : Inv st) : Inv (sendCore proc accept st pkt).1 := by
  intro ht
  have hl := sendCore_layers proc accept st pkt
  rw [hl.1] at ht
  rw [hl.2]
  exact h ht

/-- The sync block preserves the target/current invariant. -/
theorem Inv_syncStream (st : State) (pkt : RtpPacket) (sl : Int) (st2 : State)
    (heq : syncStream st pkt sl = some st2) (h : Inv st) : Inv st2 := by
  intro ht
  have hl := syncStream_layers st pkt sl st2 heq
  rw [hl.1] at ht
  rw [hl.2]
  exact h ht

set_option maxRecDepth 16000 in
set_option maxHeartbeats 1000000 in
/-- `SendRtpPacket` preserves the target/current invariant. -/
theorem Inv_SendRtpPacket (proc : ProcFn) (accept : Bool) (st : State) (pkt : RtpPacket)
    (h : Inv st) :
    ∀ st2 pkt2 tr, SendRtpPacket proc accept st pkt = some (st2, pkt2, tr) →
      Inv st2 := by
  intro st2 pkt2 tr hr
  unfold SendRtpPacket at hr
  simp only [] at hr
  iterate 10 (all_goals try split at hr)
  all_goals
    first
    | exact Option.noConfusion hr
    | (injection hr with hr1
       injection hr1 with ha hb
       rw [← ha]
       first
       | exact h
       | exact fun hx => hx
       | (rename_i stq stMid heq
          split at heq
          · refine Inv_sendCore proc accept _ pkt (Inv_syncStream _ pkt _ _ heq ?_)
            first
            | exact h
            | exact fun hx => hx
          · injection heq with heq2
            rw [← heq2]
            refine Inv_sendCore proc accept _ pkt ?_
            first
            | exact h
            | exact fun hx => hx))

/-- `HandleSetPreferredLayers` preserves the target/current invariant. -/
theorem Inv_HandleSetPreferredLayers (st : State) (s : Nat) (t? : Option Nat)
    (h : Inv st) : Inv (HandleSetPreferredLayers st s t?).1 := by
  unfold HandleSetPreferredLayers
  simp only []
  split
  · exact Inv_MayChangeLayers _ true h
  · exact h

/-- `ApplyLayers` preserves the target/current invariant. -/
theorem Inv_ApplyLayers (st : State) (h : Inv st) : Inv (ApplyLayers st).1 := by
  unfold ApplyLayers
  simp only []
  split
  · exact h
  · split
    · exact Inv_UpdateTargetLayers _ _ _
    · exact h

/-- `UseAvailableBitrate` preserves the target/current invariant. -/
theorem Inv_UseAvailableBitrate (st : State) (b : Nat) (cl : Bool) (h : Inv st) :
    Inv (UseAvailableBitrate st b cl).1 := by
  unfold UseAvailableBitrate
  simp only []
  split
  · exact h
  · exact h

/-- `IncreaseTemporalLayer` preserves the target/current invariant. -/
theorem Inv_IncreaseTemporalLayer (st : State) (b : Nat) (cl : Bool) (h : Inv st) :
    ∀ st2 r, IncreaseTemporalLayer st b cl = some (st2, r) → Inv st2 := by
  intro st2 r hr
  unfold IncreaseTemporalLayer at hr
  simp only [] at hr
  iterate 8 (all_goals try split at hr)
  all_goals
    first
    | exact Option.noConfusion hr
    | (injection hr with hr1
       have ha := congrArg Prod.fst hr1
       simp only [] at ha
       rw [← ha]
       exact h)

/-- `ProducerRtpStreamScore` preserves the target/current invariant. -/
theorem Inv_ProducerRtpStreamScore (st : State) (sIdx score prev : Nat) (h : Inv st) :
    Inv (ProducerRtpStreamScore st sIdx score prev).1 := by
  unfold ProducerRtpStreamScore
  simp only []
  split
  · exact Inv_MayChangeLayers _ false h
  · exact h

/-- `ProducerRtcpSenderReport` preserves the target/current invariant. -/
theorem Inv_ProducerRtcpSenderReport (st : State) (sIdx ntp ts : Nat) (first : Bool)
    (h : Inv st) : Inv (ProducerRtcpSenderReport st sIdx ntp ts first).1 := by
  unfold ProducerRtcpSenderReport
  simp only []
  split
  · exact h
  · split
    · exact h
    · split
      · exact h
      · split
        · exact Inv_MayChangeLayers _ false h
        · exact h

/-- `ProducerNewRtpStream` preserves the target/current invariant. -/
theorem Inv_ProducerNewRtpStream (st : State) (sIdx : Nat) (ps : PStream) (h : Inv st) :
    Inv (ProducerNewRtpStream st sIdx ps).1 := by
  unfold ProducerNewRtpStream
  simp only []
  split
  · exact Inv_MayChangeLayers _ false h
  · exact h

/-- `UserOnTransportConnected` preserves the target/current invariant. -/
theorem Inv_UserOnTransportConnected (st : State) (h : Inv st) :
    Inv (UserOnTransportConnected st).1 := by
  unfold UserOnTransportConnected
  simp only []
  split
  · exact Inv_MayChangeLayers _ false h
  · exact h

/-- `UserOnTransportDisconnected` preserves the target/current
invariant. -/
theorem Inv_UserOnTransportDisconnected (st : State) :
    Inv (UserOnTransportDisconnected st).1 := by
  unfold UserOnTransportDisconnected
  simp only []
  exact Inv_UpdateTargetLayers _ _ _

/-- `UserOnPaused` preserves the target/current invariant. -/
theorem Inv_UserOnPaused (st : State) : Inv (UserOnPaused st).1 := by
  unfold UserOnPaused
  simp only []
  split <;> exact Inv_UpdateTargetLayers _ _ _

/-- `UserOnResumed` preserves the target/current invariant. -/
theorem Inv_UserOnResumed (st : State) (h : Inv st) : Inv (UserOnResumed st).1 := by
  unfold UserOnResumed
  simp only []
  split
  · exact Inv_MayChangeLayers _ false h
  · exact h

/-- Claim C7: the invariant (targetSpatialLayer = -1 implies
currentSpatialLayer = -1) is preserved by every public operation of the
consumer that returns. -/
theorem Inv_preserved_by_steps (st : State) (s : Step) (h : Inv st) :
    ∀ st2 tr, applyStep st s = some (st2, tr) → Inv st2 := by
  intro st2 tr hr
  cases s <;> simp only [applyStep] at hr
  case packet proc accept pkt =>
    rw [Option.map_eq_some'] at hr
    obtain ⟨⟨sa, pa, ta⟩, hs, hb⟩ := hr
    have hb1 := congrArg Prod.fst hb
    simp only [] at hb1
    rw [← hb1]
    exact Inv_SendRtpPacket proc accept st pkt h sa pa ta hs
  case raiseTemporalLayer b cl =>
    rw [Option.map_eq_some'] at hr
    obtain ⟨⟨sa, ra⟩, hs, hb⟩ := hr
    have hb1 := congrArg Prod.fst hb
    simp only [] at hb1
    rw [← hb1]
    exact Inv_IncreaseTemporalLayer st b cl h sa ra hs
  all_goals
    (injection hr with hr1
     have ha := congrArg Prod.fst hr1
     simp only [] at ha
     rw [← ha])
  case setPreferredLayers sv tv => exact Inv_HandleSetPreferredLayers st sv tv h
  case requestKeyFrame => exact h
  case producerStreamAttach sIdx ps => exact h
  case producerNewStream sIdx ps => exact Inv_ProducerNewRtpStream st sIdx ps h
  case producerScore sIdx sc pv => exact Inv_ProducerRtpStreamScore st sIdx sc pv h
  case producerSenderReport sIdx ntp ts first =>
    exact Inv_ProducerRtcpSenderReport st sIdx ntp ts first h
  case useBitrate b cl => exact Inv_UseAvailableBitrate st b cl h
  case commitLayers => exact Inv_ApplyLayers st h
  case transportConnected => exact Inv_UserOnTransportConnected st h
  case transportDisconnected => exact Inv_UserOnTransportDisconnected st
  case pausedEvent => exact Inv_UserOnPaused st
  case resumedEvent => exact Inv_UserOnResumed st h
  case keyFrameRequestFromRemote => exact h

/-- Witness for C7: committing the provisional layers on the baseline
state clears the target and current layers; the invariant holds before
and after. -/
theorem Inv_preserved_by_steps_witness :
    Inv st0 ∧
    Inv { st0 with targetSpatialLayer := -1, targetTemporalLayer := -1,
                   currentSpatialLayer := -1, encodingContext := ⟨-1, -1⟩ } :=
  ⟨fun hx => absurd hx (by decide),
   Inv_preserved_by_steps st0 Step.commitLayers (fun hx => absurd hx (by decide))
     { st0 with targetSpatialLayer := -1, targetTemporalLayer := -1,
                currentSpatialLayer := -1, encodingContext := ⟨-1, -1⟩ }
     [Effect.layersChange] (by decide)⟩

end Simulcast
